import Mathlib

/-!
Shallow embedding of `twistedcaldav/scheduling/implicit.py` (ImplicitScheduler),
the implicit-scheduling engine of the calendar server: role classification,
significance diffing, cancellation resolution, message generation and the
per-recipient schedule-status write-back.

External collaborators (the iCalendar component class, the iCalDiff differ, the
iTIP generator and the CalDAV transport) are modelled abstractly: the component
is plain data exposing exactly the accessors the scheduler calls, and the
differ/transport are function-valued fields of an environment record.
-/

/-- A recurrence id: `none` is the master component, `some d` an override
keyed by its RECURRENCE-ID date (dates abstracted to `Nat`). -/
abbrev Rid := Option Nat

/-- The slice of the iCalendar `Component` interface that `ImplicitScheduler`
reads: `getOrganizersByInstance`, `getAttendeesByInstance`,
`getComponentInstances`, the master component's EXDATE properties and the
master component's `getAttendeesByInstance`, and `resourceUID`. -/
structure Component where
  organizersByInstance : List (String × Rid)
  attendeesByInstance : List (String × Rid)
  componentInstances : List Rid
  masterExdates : List Nat
  masterAttendeesByInstance : List (String × Rid)
  uid : String
deriving DecidableEq, Repr

/-- `findRemovedAttendees` (implicit.py lines 189-255), list form.
`removed` is `oldInstances - newInstances`, `added` is
`newexdates - oldexdates`; an old pair absent from the new mapping is
cancelled per branches 1./2./3. of the source, and every master attendee is
additionally cancelled at each added EXDATE that is not a removed instance.
The Python accumulator is a `set`; the list here may carry an arbitrary
order but is deduplicated, and `findRemovedAttendees` takes its `Finset`.
`cancelTest` is the per-item condition of the first loop (lines 229-246):
cancel an item absent from the new mapping unless its rid is an override
that was structurally removed, the attendee is still covered by the master
in the new mapping, and no new EXDATE covers the instance. -/
def cancelTest (n : Component) (removed : List Rid) (added : List Nat)
    (item : String × Rid) : Bool :=
  decide (item ∉ n.attendeesByInstance) &&
    (match item.2 with
     | none => true
     | some rv =>
       if (some rv : Rid) ∈ removed then
         decide ((item.1, (none : Rid)) ∉ n.attendeesByInstance) || decide (rv ∈ added)
       else true)

def findRemovedAttendeesList (o n : Component) : List (String × Rid) :=
  let removed := o.componentInstances.filter (fun r => decide (r ∉ n.componentInstances))
  let added := n.masterExdates.filter (fun d => decide (d ∉ o.masterExdates))
  let part1 := o.attendeesByInstance.filter (cancelTest n removed added)
  let part2 := (o.masterAttendeesByInstance.map Prod.fst).flatMap (fun a =>
    (added.filter (fun d => decide ((some d : Rid) ∉ removed))).map (fun d => (a, some d)))
  (part1 ++ part2).dedup

/-- The cancellation set computed by the organizer update path: the Python
`self.cancelledAttendees` set. -/
def findRemovedAttendees (o n : Component) : Finset (String × Rid) :=
  (findRemovedAttendeesList o n).toFinset

/-- Modelled from the spec's words (§4.4 Cancellation Resolver): the set of
removed instances, `oldInstanceSet − newInstanceSet`. -/
def removedInstancesSpec (o n : Component) : Set Rid :=
  {r | r ∈ o.componentInstances ∧ r ∉ n.componentInstances}

/-- Modelled from the spec's words (§4.4): the added exclusion dates,
`newExdates − oldExdates`. -/
def addedExdatesSpec (o n : Component) : Set Nat :=
  {d | d ∈ n.masterExdates ∧ d ∉ o.masterExdates}

/-- Modelled from the spec's words (§4.4 Cancellation Resolver): a pair
(attendee, rid) in the old mapping but not the new is cancelled if rid is
none or rid is not a removed instance; otherwise exactly when (attendee,
none) is absent from the new mapping or rid is an added exclusion date; and
additionally every old master attendee is cancelled at each added exclusion
date that is not a removed instance. -/
def specCancelled (o n : Component) : Set (String × Rid) :=
  {q | (q ∈ o.attendeesByInstance ∧ q ∉ n.attendeesByInstance ∧
          (q.2 = none ∨ q.2 ∉ removedInstancesSpec o n ∨
            (q.1, (none : Rid)) ∉ n.attendeesByInstance ∨
            (∃ d, q.2 = some d ∧ d ∈ addedExdatesSpec o n))) ∨
       (∃ a d, q = (a, some d) ∧ a ∈ o.masterAttendeesByInstance.map Prod.fst ∧
          d ∈ addedExdatesSpec o n ∧ (some d : Rid) ∉ removedInstancesSpec o n)}

/-- A calendar-user principal as the scheduler uses it:
`principalURL()`, `calendarUserAddresses()`, and the result of the
`calendarHome()` + UID index query made by `getOrganizersCopy`. -/
structure Principal where
  principalURL : String
  calendarUserAddresses : List String
  copyForUID : String → Option Component

/-- The calendar object being PUT: its component data plus the
SCHEDULE-STATUS parameter slots of its ATTENDEE and ORGANIZER properties
(keyed by the property's calendar-address value), the part
`setParameterToValueForPropertyWithValue` mutates. -/
structure CalObject where
  comp : Component
  attendeeStatus : List (String × Option String)
  organizerStatus : List (String × Option String)

/-- An iTIP message as produced by the `iTipGenerator` collaborator:
`generateCancel(oldcalendar, (attendee,), ridsOrNone)`,
`generateAttendeeRequest(calendar, (attendee,))`,
`generateAttendeeReply(calendar, attendee, isCancel)`. -/
inductive ITipMessage where
  | cancel (cal : Option Component) (attendee : String) (rids : Option (List Rid))
  | request (cal : Component) (attendee : String)
  | reply (cal : Component) (attendee : String) (isCancel : Bool)

/-- One `doSchedulingViaPUT(originator, (recipient,), msg)` call. -/
structure Dispatch where
  originator : String
  recipient : String
  msg : ITipMessage

/-- The ways an implicit-scheduling operation fails:
the FORBIDDEN (caldav, "single-organizer") error, the FORBIDDEN
(caldav, "valid-attendee-change") error, a failed Python `assert`, and the
`NameError` that `handleSchedulingResponse` hits on an empty response list
(its loop variables are then unbound at the write-back call). -/
inductive SchedError where
  | singleOrganizer
  | validAttendeeChange
  | assertionFailed (msg : String)
  | nameError

/-- The external collaborators of one operation: identity resolution
(`resource.principalForCalendarUserAddress`), the calendar owner
(`str(calendar_owner)`), existence and stored data of the resource
(`resource.exists()`, `resource.iCalendar()`), the iCalDiff entry points
(`organizerDiff` returns `True` when the change is insignificant;
`attendeeMerge` returns `(change_allowed, no_itip)`), and the transport
(`doSchedulingViaPUT` returning the per-recipient (recipient, status)
responses). -/
structure Env where
  principalFor : String → Option Principal
  owner : String
  resourceExists : Bool
  oldResourceData : Component
  organizerDiff : Component → Component → Bool
  attendeeMerge : Component → Component → String → Bool × Bool
  schedulingPUT : String → String → ITipMessage → List (String × String)

/-- Python truthiness of `self.organizer` (initially `None`, then a string). -/
def truthyStr : Option String → Bool
  | none => false
  | some s => !(s == "")

/-- The ORGANIZER-consistency loop of `extractCalendarData` (lines 93-102):
fold over `getOrganizersByInstance()`; once a truthy organizer is held, any
different value raises the FORBIDDEN single-organizer error. -/
def pickOrganizer : List (String × Rid) → Option String → Except SchedError (Option String)
  | [], cur => .ok cur
  | (org, _) :: rest, cur =>
    match cur with
    | some o =>
      if o == "" then pickOrganizer rest (some org)
      else if org == o then pickOrganizer rest (some o)
      else .error .singleOrganizer
    | none => pickOrganizer rest (some org)

/-- Set the SCHEDULE-STATUS parameter on every property slot whose
calendar-address value equals `recipient`. -/
def setScheduleStatus (props : List (String × Option String)) (recipient status : String) :
    List (String × Option String) :=
  props.map (fun p => if p.1 == recipient then (p.1, some status) else p)

/-- `handleSchedulingResponse` (lines 329-344) as the source has it: the
`responses` dict is built but unused, and the single
`setParameterToValueForPropertyWithValue` call after the loop uses the loop
variables, i.e. the LAST response's recipient and status; an empty response
list leaves them unbound (`NameError`). ATTENDEE properties are targeted
when `is_organizer`, ORGANIZER properties otherwise. -/
def handleSchedulingResponse (cal : CalObject) (is_organizer : Bool)
    (responses : List (String × String)) : Except SchedError CalObject :=
  match responses.getLast? with
  | none => .error .nameError
  | some (recipient, status) =>
    .ok (if is_organizer then
          { cal with attendeeStatus := setScheduleStatus cal.attendeeStatus recipient status }
         else
          { cal with organizerStatus := setScheduleStatus cal.organizerStatus recipient status })

/-- The `aggregated.setdefault(attendee, []).append(rid)` loop of
`processCancels`: group the cancelled (attendee, rid) pairs by attendee. -/
def aggregateCancels (l : List (String × Rid)) : List (String × List Rid) :=
  l.foldl (fun acc p =>
    if acc.any (fun q => q.1 == p.1)
    then acc.map (fun q => if q.1 == p.1 then (q.1, q.2 ++ [p.2]) else q)
    else acc ++ [(p.1, [p.2])]) []

/-- `processCancels` (lines 267-302): one CANCEL per aggregated attendee,
skipping the organizer's own calendar-user addresses; one big CANCEL when
`None` is among the rids, else a per-instance CANCEL; each send's response
is applied to the calendar via `handleSchedulingResponse`. -/
def processCancels (env : Env) (orgP : Principal) (organizer : String)
    (oldcal : Option Component) (cal : CalObject) :
    List (String × List Rid) → Except SchedError (CalObject × List Dispatch)
  | [] => .ok (cal, [])
  | (attendee, rids) :: rest =>
    if attendee ∈ orgP.calendarUserAddresses then
      processCancels env orgP organizer oldcal cal rest
    else
      let itipmsg := if (none : Rid) ∈ rids then ITipMessage.cancel oldcal attendee none
                     else ITipMessage.cancel oldcal attendee (some rids)
      match handleSchedulingResponse cal true (env.schedulingPUT organizer attendee itipmsg) with
      | .error e => .error e
      | .ok cal2 =>
        match processCancels env orgP organizer oldcal cal2 rest with
        | .error e => .error e
        | .ok (cal3, ds) => .ok (cal3, ⟨organizer, attendee, itipmsg⟩ :: ds)

/-- `processRequests` (lines 304-327): one REQUEST per entry of
`self.attendeesByInstance` (NOT per distinct attendee), skipping the
organizer's own calendar-user addresses; each response is applied via
`handleSchedulingResponse`. -/
def processRequests (env : Env) (orgP : Principal) (organizer : String) (cal : CalObject) :
    List (String × Rid) → Except SchedError (CalObject × List Dispatch)
  | [] => .ok (cal, [])
  | (attendee, _) :: rest =>
    if attendee ∈ orgP.calendarUserAddresses then
      processRequests env orgP organizer cal rest
    else
      let itipmsg := ITipMessage.request cal.comp attendee
      match handleSchedulingResponse cal true (env.schedulingPUT organizer attendee itipmsg) with
      | .error e => .error e
      | .ok cal2 =>
        match processRequests env orgP organizer cal2 rest with
        | .error e => .error e
        | .ok (cal3, ds) => .ok (cal3, ⟨organizer, attendee, itipmsg⟩ :: ds)

/-- `scheduleWithAttendees` (lines 257-265): cancels first, then requests
unless deleting. -/
def scheduleWithAttendees (env : Env) (orgP : Principal) (organizer : String)
    (oldcal : Option Component) (cancelled : List (String × Rid)) (deleting : Bool)
    (attendeesByInstance : List (String × Rid)) (cal : CalObject) :
    Except SchedError (CalObject × List Dispatch) :=
  match processCancels env orgP organizer oldcal cal (aggregateCancels cancelled) with
  | .error e => .error e
  | .ok (cal2, ds1) =>
    if deleting then .ok (cal2, ds1)
    else
      match processRequests env orgP organizer cal2 attendeesByInstance with
      | .error e => .error e
      | .ok (cal3, ds2) => .ok (cal3, ds1 ++ ds2)

/-- `doImplicitOrganizer` (lines 149-182): deleting cancels every attendee
of the whole series; an update of an existing resource short-circuits when
`iCalDiff.organizerDiff` reports the change insignificant and otherwise
resolves cancellations with `findRemovedAttendees`; a new resource has no
cancellations. -/
def doImplicitOrganizer (env : Env) (cal : CalObject) (deleting : Bool)
    (organizer : String) (orgP : Principal) (attendees : List String) :
    Except SchedError (Option CalObject × List Dispatch) :=
  if deleting then
    let cancelled := attendees.map (fun a => (a, (none : Rid)))
    match scheduleWithAttendees env orgP organizer (some cal.comp) cancelled true
        cal.comp.attendeesByInstance cal with
    | .error e => .error e
    | .ok (cal2, ds) => .ok (some cal2, ds)
  else if env.resourceExists then
    if env.organizerDiff env.oldResourceData cal.comp then
      .ok (some cal, [])
    else
      let cancelled := findRemovedAttendeesList env.oldResourceData cal.comp
      match scheduleWithAttendees env orgP organizer (some env.oldResourceData) cancelled false
          cal.comp.attendeesByInstance cal with
      | .error e => .error e
      | .ok (cal2, ds) => .ok (some cal2, ds)
  else
    match scheduleWithAttendees env orgP organizer none [] false
        cal.comp.attendeesByInstance cal with
    | .error e => .error e
    | .ok (cal2, ds) => .ok (some cal2, ds)

/-- The attendee-matching loop of `isAttendeeScheduling` (lines 140-145):
the first attendee address whose principal's URL equals the owner. -/
def findMatchingAttendee (env : Env) : List String → Option (String × Principal)
  | [] => none
  | a :: rest =>
    match env.principalFor a with
    | some ap => if ap.principalURL == env.owner then some (a, ap)
                 else findMatchingAttendee env rest
    | none => findMatchingAttendee env rest

/-- `doImplicitAttendee` (lines 346-366) with `scheduleCancelWithOrganizer`,
`getOrganizersCopy`, `isAttendeeChangeInsignificant`, `scheduleWithOrganizer`
and `sendToOrganizer` inlined: deleting sends a cancelling REPLY to the
organizer; otherwise the organizer's copy is fetched (None when the
organizer principal is unresolved or no resource holds the UID) and the
source's `assert self.organizer_calendar` fails on None; then
`attendeeMerge` either forbids the change (FORBIDDEN valid-attendee-change),
reports it not message-worthy (return unchanged), or a REPLY is sent. -/
def doImplicitAttendee (env : Env) (cal : CalObject) (deleting : Bool)
    (organizer : String) (orgP : Option Principal) (attendee : String) :
    Except SchedError (Option CalObject × List Dispatch) :=
  if deleting then
    let itipmsg := ITipMessage.reply cal.comp attendee true
    match handleSchedulingResponse cal false (env.schedulingPUT attendee organizer itipmsg) with
    | .error e => .error e
    | .ok cal2 => .ok (some cal2, [⟨attendee, organizer, itipmsg⟩])
  else
    match orgP.bind (fun p => p.copyForUID cal.comp.uid) with
    | none => .error (.assertionFailed "Must have the organizer's copy of an invite")
    | some orgCal =>
      let merged := env.attendeeMerge orgCal cal.comp attendee
      if !merged.1 then .error .validAttendeeChange
      else if merged.2 then .ok (some cal, [])
      else
        let itipmsg := ITipMessage.reply cal.comp attendee false
        match handleSchedulingResponse cal false (env.schedulingPUT attendee organizer itipmsg) with
        | .error e => .error e
        | .ok cal2 => .ok (some cal2, [⟨attendee, organizer, itipmsg⟩])

/-- `doImplicitScheduling` (lines 49-88): the deleting-requires-calendar
assert, `extractCalendarData` (organizer consistency, attendee set), then
role classification — `isOrganizerScheduling` (organizer truthy, resolves
to a principal whose URL equals the owner) takes the organizer flow,
otherwise `isAttendeeScheduling` (organizer truthy, some attendee resolves
to the owner) takes the attendee flow, otherwise no action (`None`). The
result pairs the returned calendar object with the dispatched messages. -/
def doImplicitScheduling (env : Env) (calendar : Option CalObject) (deleting : Bool) :
    Except SchedError (Option CalObject × List Dispatch) :=
  if deleting && calendar.isNone then
    .error (.assertionFailed "deleting and calendar or not deleting")
  else
    match calendar with
    | none => .error (.assertionFailed "NoneType has no attribute")
    | some cal =>
      match pickOrganizer cal.comp.organizersByInstance none with
      | .error e => .error e
      | .ok organizer =>
        let attendees := (cal.comp.attendeesByInstance.map Prod.fst).dedup
        if truthyStr organizer then
          let org := organizer.getD ""
          let orgP := env.principalFor org
          match orgP with
          | some p =>
            if env.owner == p.principalURL then
              doImplicitOrganizer env cal deleting org p attendees
            else
              match findMatchingAttendee env attendees with
              | some (att, _) => doImplicitAttendee env cal deleting org orgP att
              | none => .ok (none, [])
          | none =>
            match findMatchingAttendee env attendees with
            | some (att, _) => doImplicitAttendee env cal deleting org orgP att
            | none => .ok (none, [])
        else .ok (none, [])

/-- The dispatched recipients of an operation's outcome, in send order. -/
def dispatchedRecipients : Except SchedError (Option CalObject × List Dispatch) → List String
  | .ok (_, ds) => ds.map Dispatch.recipient
  | .error _ => []

theorem cancelTest_iff (n : Component) (removed : List Rid) (added : List Nat)
    (a : String) (r : Rid) :
    cancelTest n removed added (a, r) = true ↔
      ((a, r) ∉ n.attendeesByInstance ∧
        (r = none ∨ r ∉ removed ∨ (a, (none : Rid)) ∉ n.attendeesByInstance ∨
          ∃ d, r = some d ∧ d ∈ added)) := by
  cases r with
  | none => simp [cancelTest]
  | some rv =>
    by_cases h : (some rv : Rid) ∈ removed
    · simp [cancelTest, h]
    · simp [cancelTest, h]

theorem mem_findRemovedAttendeesList (o n : Component) (q : String × Rid) :
    q ∈ findRemovedAttendeesList o n ↔
      (q ∈ o.attendeesByInstance ∧ q ∉ n.attendeesByInstance ∧
        (q.2 = none ∨ q.2 ∉ removedInstancesSpec o n ∨
          (q.1, (none : Rid)) ∉ n.attendeesByInstance ∨
          ∃ d, q.2 = some d ∧ d ∈ addedExdatesSpec o n)) ∨
      (∃ a d, q = (a, some d) ∧ a ∈ o.masterAttendeesByInstance.map Prod.fst ∧
        d ∈ addedExdatesSpec o n ∧ (some d : Rid) ∉ removedInstancesSpec o n) := by
  obtain ⟨a, r⟩ := q
  simp only [findRemovedAttendeesList, List.mem_dedup, List.mem_append, List.mem_filter,
    List.mem_flatMap, List.mem_map, cancelTest_iff, decide_eq_true_eq,
    removedInstancesSpec, addedExdatesSpec, Set.mem_setOf_eq]
  constructor
  · rintro (⟨hmem, hnot, hc⟩ | ⟨x, hx, d, ⟨hd, hdr⟩, heq⟩)
    · refine Or.inl ⟨hmem, hnot, ?_⟩
      rcases hc with h | h | h | ⟨d, hd1, hd2⟩
      · exact Or.inl h
      · exact Or.inr (Or.inl (fun hr => h ⟨hr.1, hr.2⟩))
      · exact Or.inr (Or.inr (Or.inl h))
      · exact Or.inr (Or.inr (Or.inr ⟨d, hd1, hd2⟩))
    · exact Or.inr ⟨x, d, heq.symm, hx, hd, fun hr => hdr ⟨hr.1, hr.2⟩⟩
  · rintro (⟨hmem, hnot, hc⟩ | ⟨x, d, heq, hx, hd, hdr⟩)
    · refine Or.inl ⟨hmem, hnot, ?_⟩
      rcases hc with h | h | h | ⟨d, hd1, hd2⟩
      · exact Or.inl h
      · exact Or.inr (Or.inl (fun hr => h ⟨hr.1, hr.2⟩))
      · exact Or.inr (Or.inr (Or.inl h))
      · exact Or.inr (Or.inr (Or.inr ⟨d, hd1, hd2⟩))
    · exact Or.inr ⟨x, hx, d, ⟨hd, fun hr => hdr ⟨hr.1, hr.2⟩⟩, heq.symm⟩

theorem pickOrganizer_error_of_mem (b o : String) (ho : o ≠ "") (hne : b ≠ o) :
    ∀ l : List (String × Rid), b ∈ l.map Prod.fst →
      pickOrganizer l (some o) = .error .singleOrganizer := by
  intro l
  induction l with
  | nil => intro h; simp at h
  | cons x rest ih =>
    obtain ⟨xa, xr⟩ := x
    intro hmem
    by_cases hxo : xa = o
    · subst hxo
      have hb' : b ∈ rest.map Prod.fst := by
        rw [List.map_cons, List.mem_cons] at hmem
        rcases hmem with h | h
        · exact absurd h hne
        · exact h
      simp only [pickOrganizer]
      rw [if_neg (by simpa using ho), if_pos (by simp)]
      exact ih hb'
    · simp only [pickOrganizer]
      rw [if_neg (by simpa using ho), if_neg (by simpa using hxo)]

theorem pickOrganizer_error_general (a b : String) (ha : a ≠ "") (hb : b ≠ "") (hne : a ≠ b) :
    ∀ (l : List (String × Rid)) (cur : Option String),
      a ∈ l.map Prod.fst → b ∈ l.map Prod.fst →
      pickOrganizer l cur = .error .singleOrganizer := by
  intro l
  induction l with
  | nil => intro cur h _; simp at h
  | cons x rest ih =>
    obtain ⟨xa, xr⟩ := x
    intro cur hma hmb
    have hma' : a = xa ∨ a ∈ rest.map Prod.fst := by
      rw [List.map_cons, List.mem_cons] at hma; exact hma
    have hmb' : b = xa ∨ b ∈ rest.map Prod.fst := by
      rw [List.map_cons, List.mem_cons] at hmb; exact hmb
    -- after the head, the continuation holds (some xa) when cur is falsy,
    -- (some o) when cur = some o is truthy and xa = o, and errors otherwise
    have step : ∀ c : String, c ≠ "" → (a = c ∨ a ∈ rest.map Prod.fst) →
        (b = c ∨ b ∈ rest.map Prod.fst) →
        pickOrganizer rest (some c) = .error .singleOrganizer := by
      intro c hc hac hbc
      rcases hac with rfl | hac
      · rcases hbc with rfl | hbc
        · exact absurd rfl hne
        · exact pickOrganizer_error_of_mem b a hc (fun h => hne h.symm) rest hbc
      · rcases hbc with rfl | hbc
        · exact pickOrganizer_error_of_mem a b hc hne rest hac
        · exact ih (some c) hac hbc
    match cur with
    | none =>
      simp only [pickOrganizer]
      by_cases hxa : xa = ""
      · subst hxa
        have hma2 : a ∈ rest.map Prod.fst := by
          rcases hma' with rfl | h
          · exact absurd rfl ha
          · exact h
        have hmb2 : b ∈ rest.map Prod.fst := by
          rcases hmb' with rfl | h
          · exact absurd rfl hb
          · exact h
        exact ih (some "") hma2 hmb2
      · exact step xa hxa hma' hmb'
    | some o =>
      by_cases ho : o = ""
      · subst ho
        simp only [pickOrganizer]
        rw [if_pos (by simp)]
        by_cases hxa : xa = ""
        · subst hxa
          have hma2 : a ∈ rest.map Prod.fst := by
            rcases hma' with rfl | h
            · exact absurd rfl ha
            · exact h
          have hmb2 : b ∈ rest.map Prod.fst := by
            rcases hmb' with rfl | h
            · exact absurd rfl hb
            · exact h
          exact ih (some "") hma2 hmb2
        · exact step xa hxa hma' hmb'
      · simp only [pickOrganizer]
        rw [if_neg (by simpa using ho)]
        by_cases hxo : xa = o
        · subst hxo
          rw [if_pos (by simp)]
          exact step xa ho hma' hmb'
        · rw [if_neg (by simpa using hxo)]

/-- The old calendar object of the spec's cancellation scenario:
master attendees A and B, an override at instance 1 with attendees A and C,
no EXDATE. -/
def compScenarioOld : Component :=
  { organizersByInstance := [("mailto:org@x", none), ("mailto:org@x", some 1)]
    attendeesByInstance := [("A", none), ("B", none), ("A", some 1), ("C", some 1)]
    componentInstances := [none, some 1]
    masterExdates := []
    masterAttendeesByInstance := [("A", none), ("B", none)]
    uid := "uid-scenario" }

/-- The new calendar object of the spec's cancellation scenario: the
override removed entirely and EXDATE=1 added. -/
def compScenarioNew : Component :=
  { organizersByInstance := [("mailto:org@x", none)]
    attendeesByInstance := [("A", none), ("B", none)]
    componentInstances := [none]
    masterExdates := [1]
    masterAttendeesByInstance := [("A", none), ("B", none)]
    uid := "uid-scenario" }

/-- A calendar object carrying two distinct ORGANIZER values. -/
def compTwoOrganizers : Component :=
  { organizersByInstance := [("mailto:one@x", none), ("mailto:two@x", some 1)]
    attendeesByInstance := [("mailto:att@x", none)]
    componentInstances := [none, some 1]
    masterExdates := []
    masterAttendeesByInstance := [("mailto:att@x", none)]
    uid := "uid-two" }

def calTwoOrganizers : CalObject :=
  { comp := compTwoOrganizers
    attendeeStatus := [("mailto:att@x", none)]
    organizerStatus := [("mailto:one@x", none)] }

/-- The owner's own principal, hosting no copy of any UID. -/
def pOwner : Principal :=
  { principalURL := "/principals/owner/"
    calendarUserAddresses := ["mailto:owner@x"]
    copyForUID := fun _ => none }

/-- A plain environment: the owner's address resolves to `pOwner`, the
stored resource exists, every change is insignificant. -/
def envInsignificant : Env :=
  { principalFor := fun a => if a == "mailto:owner@x" then some pOwner else none
    owner := "/principals/owner/"
    resourceExists := true
    oldResourceData := compScenarioOld
    organizerDiff := fun _ _ => true
    attendeeMerge := fun _ _ _ => (true, false)
    schedulingPUT := fun _ r _ => [(r, "2.0")] }

/-- A calendar object organized by the owner, who also appears among the
attendees, with one other attendee. -/
def calOwnerOrganizer : CalObject :=
  { comp :=
      { organizersByInstance := [("mailto:owner@x", none)]
        attendeesByInstance := [("mailto:owner@x", none), ("mailto:att@x", none)]
        componentInstances := [none]
        masterExdates := []
        masterAttendeesByInstance := [("mailto:owner@x", none), ("mailto:att@x", none)]
        uid := "uid-owner" }
    attendeeStatus := [("mailto:owner@x", none), ("mailto:att@x", none)]
    organizerStatus := [("mailto:owner@x", none)] }

/-- A recurring calendar object (master plus one override) whose single
attendee appears in both instances, organized by a resolvable organizer. -/
def compRepeatAttendee : Component :=
  { organizersByInstance := [("mailto:org@x", none)]
    attendeesByInstance := [("mailto:a@x", none), ("mailto:a@x", some 1)]
    componentInstances := [none, some 1]
    masterExdates := []
    masterAttendeesByInstance := [("mailto:a@x", none)]
    uid := "uid-repeat" }

def calRepeatAttendee : CalObject :=
  { comp := compRepeatAttendee
    attendeeStatus := [("mailto:a@x", none)]
    organizerStatus := [("mailto:org@x", none)] }

/-- The organizer's principal for `compRepeatAttendee`. -/
def pOrgLocal : Principal :=
  { principalURL := "/principals/org/"
    calendarUserAddresses := ["mailto:org@x"]
    copyForUID := fun _ => none }

/-- Environment in which `compRepeatAttendee` is a NEW resource owned by
its organizer. -/
def envNewResource : Env :=
  { principalFor := fun a => if a == "mailto:org@x" then some pOrgLocal else none
    owner := "/principals/org/"
    resourceExists := false
    oldResourceData := compRepeatAttendee
    organizerDiff := fun _ _ => false
    attendeeMerge := fun _ _ _ => (true, false)
    schedulingPUT := fun _ r _ => [(r, "2.0")] }

/-- A calendar object with pending (unset) SCHEDULE-STATUS slots for two
attendees, for exercising the write-back. -/
def calTwoAttendeeSlots : CalObject :=
  { comp := compRepeatAttendee
    attendeeStatus := [("mailto:a@x", none), ("mailto:b@x", none)]
    organizerStatus := [] }

/-- The attendee's principal: its URL is the calendar owner. -/
def pAttLocal : Principal :=
  { principalURL := "/principals/att/"
    calendarUserAddresses := ["mailto:att@x"]
    copyForUID := fun _ => none }

/-- A calendar object whose organizer is not hosted locally and whose
attendee is the calendar owner. -/
def calRemoteOrganizer : CalObject :=
  { comp :=
      { organizersByInstance := [("mailto:remote-org@y", none)]
        attendeesByInstance := [("mailto:att@x", none)]
        componentInstances := [none]
        masterExdates := []
        masterAttendeesByInstance := [("mailto:att@x", none)]
        uid := "uid-remote" }
    attendeeStatus := [("mailto:att@x", none)]
    organizerStatus := [("mailto:remote-org@y", none)] }

/-- Environment of the attendee flow in which the organizer's address does
not resolve to any local principal. -/
def envOrganizerUnresolved : Env :=
  { principalFor := fun a => if a == "mailto:att@x" then some pAttLocal else none
    owner := "/principals/att/"
    resourceExists := true
    oldResourceData := calRemoteOrganizer.comp
    organizerDiff := fun _ _ => false
    attendeeMerge := fun _ _ _ => (true, false)
    schedulingPUT := fun _ r _ => [(r, "2.0")] }

/-- The organizer's copy of the event for the forbidden-change scenario. -/
def compOrganizerCopy : Component :=
  { organizersByInstance := [("mailto:far-org@y", none)]
    attendeesByInstance := [("mailto:att@x", none)]
    componentInstances := [none]
    masterExdates := []
    masterAttendeesByInstance := [("mailto:att@x", none)]
    uid := "uid-far" }

/-- The organizer's principal for the forbidden-change scenario: hosted on
this server (so its copy of the event is found) but not the owner of the
calendar being written. -/
def pOrgFar : Principal :=
  { principalURL := "/principals/far-org/"
    calendarUserAddresses := ["mailto:far-org@y"]
    copyForUID := fun u => if u == "uid-far" then some compOrganizerCopy else none }

/-- The attendee's calendar object in the forbidden-change scenario. -/
def calForbidden : CalObject :=
  { comp :=
      { organizersByInstance := [("mailto:far-org@y", none)]
        attendeesByInstance := [("mailto:att@x", none)]
        componentInstances := [none]
        masterExdates := []
        masterAttendeesByInstance := [("mailto:att@x", none)]
        uid := "uid-far" }
    attendeeStatus := [("mailto:att@x", none)]
    organizerStatus := [("mailto:far-org@y", none)] }

/-- Environment of the attendee flow in which `attendeeMerge` reports the
change not allowed. -/
def envForbiddenChange : Env :=
  { principalFor := fun a =>
      if a == "mailto:att@x" then some pAttLocal
      else if a == "mailto:far-org@y" then some pOrgFar
      else none
    owner := "/principals/att/"
    resourceExists := true
    oldResourceData := compOrganizerCopy
    organizerDiff := fun _ _ => false
    attendeeMerge := fun _ _ _ => (false, false)
    schedulingPUT := fun _ r _ => [(r, "2.0")] }

/-- C1: for an organizer update of an existing resource with a significant
change, the cancellation set computed by `findRemovedAttendees` equals the
spec's Cancellation Resolver rule `specCancelled`: an old (attendee, rid)
pair absent from the new mapping is cancelled when rid is none or rid is
not a removed instance, otherwise exactly when (attendee, none) is absent
from the new mapping or rid is an added exclusion date; and every old
master attendee is cancelled at each added exclusion date that is not a
removed instance. -/
theorem findRemovedAttendees_matches_spec (o n : Component) :
    (↑(findRemovedAttendees o n) : Set (String × Rid)) = specCancelled o n := by
  ext q
  simp only [Finset.mem_coe, findRemovedAttendees, List.mem_toFinset,
    mem_findRemovedAttendeesList, specCancelled, Set.mem_setOf_eq]

/-- C2 counterexample: in the spec's scenario (old: master attendees A, B
and an override at instance 1 with attendees A, C; new: override removed,
EXDATE=1 added) the cancellation set is NOT the singleton (C, 1) — the pair
(A, 1) is also cancelled, because instance 1 is an added exclusion date. -/
theorem scenario_cancellations_not_singleton :
    ("A", (some 1 : Rid)) ∈ findRemovedAttendees compScenarioOld compScenarioNew ∧
      findRemovedAttendees compScenarioOld compScenarioNew ≠ {("C", (some 1 : Rid))} := by
  decide

/-- C2 (amended): in the spec's scenario the cancellation set computed by
`findRemovedAttendees` is exactly the pairs (A, 1) and (C, 1): (C, 1)
because C is not covered by the master in the new object, and (A, 1)
because instance 1 is among the added exclusion dates, which branch 3 of
the rule cancels even though A remains covered by the master. -/
theorem scenario_cancellations_exact :
    findRemovedAttendees compScenarioOld compScenarioNew =
      {("A", (some 1 : Rid)), ("C", (some 1 : Rid))} := by
  decide

/-- C3: a calendar object holding two distinct (non-empty) organizer
addresses across its component instances makes `doImplicitScheduling` fail
with the FORBIDDEN single-organizer error, raised in `extractCalendarData`
before role classification (the conclusion holds for every environment, so
no classification result, message or dispatch is involved). -/
theorem multiple_organizers_forbidden (env : Env) (cal : CalObject) (deleting : Bool)
    (a b : String)
    (hma : a ∈ cal.comp.organizersByInstance.map Prod.fst)
    (hmb : b ∈ cal.comp.organizersByInstance.map Prod.fst)
    (hab : a ≠ b) (ha : a ≠ "") (hb : b ≠ "") :
    doImplicitScheduling env (some cal) deleting = .error .singleOrganizer := by
  have h := pickOrganizer_error_general a b ha hb hab cal.comp.organizersByInstance none hma hmb
  simp [doImplicitScheduling, h]

/-- Witness for C3 at a concrete two-organizer object. -/
theorem multiple_organizers_forbidden_witness :
    ("mailto:one@x" ∈ calTwoOrganizers.comp.organizersByInstance.map Prod.fst ∧
      "mailto:two@x" ∈ calTwoOrganizers.comp.organizersByInstance.map Prod.fst ∧
      ("mailto:one@x" : String) ≠ "mailto:two@x" ∧
      ("mailto:one@x" : String) ≠ "" ∧ ("mailto:two@x" : String) ≠ "") ∧
    doImplicitScheduling envInsignificant (some calTwoOrganizers) false =
      .error .singleOrganizer :=
  ⟨⟨by decide, by decide, by decide, by decide, by decide⟩,
    multiple_organizers_forbidden envInsignificant calTwoOrganizers false
      "mailto:one@x" "mailto:two@x" (by decide) (by decide) (by decide) (by decide) (by decide)⟩

/-- C4: a non-deleting organizer update of an existing resource whose
change `iCalDiff.organizerDiff` reports insignificant dispatches no
messages and returns the calendar object unchanged (no SCHEDULE-STATUS
write, no other change). -/
theorem insignificant_change_noop (env : Env) (cal : CalObject) (org : String) (p : Principal)
    (horg : pickOrganizer cal.comp.organizersByInstance none = .ok (some org))
    (hne : org ≠ "")
    (hp : env.principalFor org = some p)
    (howner : env.owner = p.principalURL)
    (hex : env.resourceExists = true)
    (hdiff : env.organizerDiff env.oldResourceData cal.comp = true) :
    doImplicitScheduling env (some cal) false = .ok (some cal, []) := by
  simp [doImplicitScheduling, horg, truthyStr, hne, hp, howner, doImplicitOrganizer, hex, hdiff]

/-- Witness for C4 at a concrete insignificant update. -/
theorem insignificant_change_noop_witness :
    (pickOrganizer calOwnerOrganizer.comp.organizersByInstance none =
        .ok (some "mailto:owner@x") ∧
      ("mailto:owner@x" : String) ≠ "" ∧
      envInsignificant.principalFor "mailto:owner@x" = some pOwner ∧
      envInsignificant.owner = pOwner.principalURL ∧
      envInsignificant.resourceExists = true ∧
      envInsignificant.organizerDiff envInsignificant.oldResourceData
        calOwnerOrganizer.comp = true) ∧
    doImplicitScheduling envInsignificant (some calOwnerOrganizer) false =
      .ok (some calOwnerOrganizer, []) :=
  ⟨⟨rfl, by decide, rfl, rfl, rfl, rfl⟩,
    insignificant_change_noop envInsignificant calOwnerOrganizer "mailto:owner@x" pOwner
      rfl (by decide) rfl rfl rfl rfl⟩

/-- C5 evaluated at its failing input: `handleSchedulingResponse` receives
the responses (a, 2.0) then (b, 5.1) on a calendar with unset status slots
for a and b, and — because the write-back call sits after the loop and uses
the loop variables — only b's ATTENDEE property gets SCHEDULE-STATUS=5.1;
a's property stays untouched, contradicting the per-response write-back the
claim (and the source's own comment) describes. -/
theorem write_back_only_last_response :
    handleSchedulingResponse calTwoAttendeeSlots true
        [("mailto:a@x", "2.0"), ("mailto:b@x", "5.1")] =
      .ok { comp := compRepeatAttendee
            attendeeStatus := [("mailto:a@x", none), ("mailto:b@x", some "5.1")]
            organizerStatus := [] } := by
  rfl

/-- C6 evaluated at its failing input: a new resource whose attendee
mailto:a@x sits in two instances gets TWO request dispatches (one per
(attendee, instance) entry of `getAttendeesByInstance`), not one per
distinct attendee as the claim (and the source's own comment) states; the
organizer's own address is still never a recipient. -/
theorem request_per_instance_not_per_attendee :
    dispatchedRecipients (doImplicitScheduling envNewResource (some calRepeatAttendee) false) =
      ["mailto:a@x", "mailto:a@x"] := by
  rfl

/-- C7 evaluated at its failing input: in the attendee flow with deleting
false, when the organizer's address resolves to no local principal, so
`getOrganizersCopy` leaves the organizer's copy as none, the operation does
NOT proceed trusting the incoming data: the source's
`assert self.organizer_calendar` fails the whole operation, contradicting
the claim and the docstring of `getOrganizersCopy`. -/
theorem missing_organizer_copy_asserts :
    doImplicitScheduling envOrganizerUnresolved (some calRemoteOrganizer) false =
      .error (.assertionFailed "Must have the organizer's copy of an invite") := by
  rfl

/-- C8: in the attendee flow, when `attendeeMerge` reports the change not
allowed, the operation fails with the FORBIDDEN valid-attendee-change
error; the error outcome carries no dispatches and no modified calendar
object, so no reply is generated and the object is unchanged. -/
theorem forbidden_attendee_change_fails (env : Env) (cal : CalObject) (org : String)
    (p : Principal) (att : String) (ap : Principal) (orgCal : Component)
    (horg : pickOrganizer cal.comp.organizersByInstance none = .ok (some org))
    (hne : org ≠ "")
    (hp : env.principalFor org = some p)
    (howner : env.owner ≠ p.principalURL)
    (hatt : findMatchingAttendee env ((cal.comp.attendeesByInstance.map Prod.fst).dedup) =
      some (att, ap))
    (hcopy : p.copyForUID cal.comp.uid = some orgCal)
    (hmerge : (env.attendeeMerge orgCal cal.comp att).1 = false) :
    doImplicitScheduling env (some cal) false = .error .validAttendeeChange := by
  simp [doImplicitScheduling, horg, truthyStr, hne, hp, howner, hatt,
    doImplicitAttendee, hcopy, hmerge]

/-- Witness for C8 at a concrete disallowed attendee change. -/
theorem forbidden_attendee_change_fails_witness :
    (pickOrganizer calForbidden.comp.organizersByInstance none =
        .ok (some "mailto:far-org@y") ∧
      ("mailto:far-org@y" : String) ≠ "" ∧
      envForbiddenChange.principalFor "mailto:far-org@y" = some pOrgFar ∧
      envForbiddenChange.owner ≠ pOrgFar.principalURL ∧
      findMatchingAttendee envForbiddenChange
          ((calForbidden.comp.attendeesByInstance.map Prod.fst).dedup) =
        some ("mailto:att@x", pAttLocal) ∧
      pOrgFar.copyForUID calForbidden.comp.uid = some compOrganizerCopy ∧
      (envForbiddenChange.attendeeMerge compOrganizerCopy calForbidden.comp
          "mailto:att@x").1 = false) ∧
    doImplicitScheduling envForbiddenChange (some calForbidden) false =
      .error .validAttendeeChange :=
  ⟨⟨rfl, by decide, rfl, by decide, rfl, rfl, rfl⟩,
    forbidden_attendee_change_fails envForbiddenChange calForbidden "mailto:far-org@y"
      pOrgFar "mailto:att@x" pAttLocal compOrganizerCopy
      rfl (by decide) rfl (by decide) rfl rfl rfl⟩

/-- C9: role classification gives the organizer role precedence — whenever
the (truthy) organizer address resolves to a principal whose URL equals the
calendar owner, the whole operation equals the organizer flow
`doImplicitOrganizer`, which never consults the attendee matching or the
attendee flow; this holds even when the owner's address also appears in the
attendee set (see the witness), and in the embedding the attendee match is
syntactically reachable only on the non-organizer branches. -/
theorem organizer_role_precedence (env : Env) (cal : CalObject) (deleting : Bool)
    (org : String) (p : Principal)
    (horg : pickOrganizer cal.comp.organizersByInstance none = .ok (some org))
    (hne : org ≠ "")
    (hp : env.principalFor org = some p)
    (howner : env.owner = p.principalURL) :
    doImplicitScheduling env (some cal) deleting =
      doImplicitOrganizer env cal deleting org p
        ((cal.comp.attendeesByInstance.map Prod.fst).dedup) := by
  simp [doImplicitScheduling, horg, truthyStr, hne, hp, howner]

/-- Witness for C9 at a concrete object whose owner-organizer also appears
in the attendee set. -/
theorem organizer_role_precedence_witness :
    (pickOrganizer calOwnerOrganizer.comp.organizersByInstance none =
        .ok (some "mailto:owner@x") ∧
      ("mailto:owner@x" : String) ≠ "" ∧
      envInsignificant.principalFor "mailto:owner@x" = some pOwner ∧
      envInsignificant.owner = pOwner.principalURL ∧
      "mailto:owner@x" ∈ calOwnerOrganizer.comp.attendeesByInstance.map Prod.fst) ∧
    doImplicitScheduling envInsignificant (some calOwnerOrganizer) false =
      doImplicitOrganizer envInsignificant calOwnerOrganizer false "mailto:owner@x" pOwner
        ((calOwnerOrganizer.comp.attendeesByInstance.map Prod.fst).dedup) :=
  ⟨⟨rfl, by decide, rfl, rfl, by decide⟩,
    organizer_role_precedence envInsignificant calOwnerOrganizer false
      "mailto:owner@x" pOwner rfl (by decide) rfl rfl⟩

/-- C10: calling `doImplicitScheduling` with deleting true and no calendar
data fails the source's `assert deleting and calendar or not deleting`
before `extractCalendarData`, role classification, message generation or
dispatch (the conclusion holds for every environment). -/
theorem deleting_requires_calendar (env : Env) :
    doImplicitScheduling env none true =
      .error (.assertionFailed "deleting and calendar or not deleting") := by
  rfl
